import Mathlib

/-!
Shallow embedding of the ekg-system signal pipeline.

Sources embedded here:
  src/ekg_system/arrhythmia_detector.py  (ArrhythmiaDetector)
  src/ekg_system/processor.py            (EKGProcessor)

Modelling conventions, stated once:
  * Sample values and derived quantities are rationals.  Decimal literals of
    the Python source (0.5, 0.7, 1.3, 1.5, 0.1, 0.05, 0.6) are the exact
    fractions 1/2, 7/10, 13/10, 3/2, 1/10, 1/20, 3/5.  None of the verified
    properties depends on IEEE rounding of these constants.
  * numpy.std(xs) is sqrt of the population variance.  sqrt leaves the
    rationals, so the embedding carries the variance (the square of std) and
    every comparison of the source against k * std, with both sides
    nonnegative, is carried as the equivalent comparison of squares.
    The places doing this are marked.
  * numpy.mean of an empty array is NaN (with a RuntimeWarning).  The
    embedding returns 0 there (division by zero in the rationals).  Each
    verified property either excludes the empty case or, as in peak
    detection over an empty signal, never consults the value.
  * Rational division by zero is 0 where Python would produce inf or raise;
    the theorems below restrict to inputs where the source performs no such
    division (positive sampling rate, nonzero interval where relevant).
-/

namespace EKG

/-- numpy.mean over a list of rationals; 0 on the empty list (numpy: NaN). -/
def qmean (xs : List ℚ) : ℚ := xs.sum / xs.length

/-- Square of numpy.std (population variance): mean of squared deviations. -/
def qvar (xs : List ℚ) : ℚ := qmean (xs.map (fun x => (x - qmean xs) ^ 2))

/-- numpy.max over a nonempty list; headD 0 seeds the fold (numpy raises on
empty input, which no embedded call site reaches). -/
def qmax (xs : List ℚ) : ℚ := xs.foldl max (xs.headD 0)

/-- numpy.min over a nonempty list, same convention as qmax. -/
def qmin (xs : List ℚ) : ℚ := xs.foldl min (xs.headD 0)

/-- ArrhythmiaType enum of arrhythmia_detector.py. -/
inductive ArrhythmiaType
  | NORMAL
  | TACHYCARDIA
  | BRADYCARDIA
  | IRREGULAR
  | PREMATURE_BEAT
  | PAUSE
deriving DecidableEq

/-- The .value string of each ArrhythmiaType member. -/
def arrhythmiaValue : ArrhythmiaType → String
  | .NORMAL => "Normal Sinus Rhythm"
  | .TACHYCARDIA => "Tachycardia"
  | .BRADYCARDIA => "Bradycardia"
  | .IRREGULAR => "Irregular Rhythm"
  | .PREMATURE_BEAT => "Premature Beat"
  | .PAUSE => "Pause/Block"

/-- WaveformType enum of arrhythmia_detector.py. -/
inductive WaveformType
  | NORMAL
  | WIDE_QRS
  | ELEVATED_ST
  | DEPRESSED_ST
  | INVERTED_T
deriving DecidableEq

/-- ArrhythmiaDetector.__init__: self.tachycardia_threshold = 700. -/
def tachycardia_threshold : ℚ := 700

/-- ArrhythmiaDetector.__init__: self.bradycardia_threshold = 400. -/
def bradycardia_threshold : ℚ := 400

/-- The line heart_rates = 60.0 * self.sampling_rate / rr_intervals of
ArrhythmiaDetector.analyze_rhythm (elementwise numpy division). -/
def heart_rates (sampling_rate : ℚ) (rr : List ℚ) : List ℚ :=
  rr.map (fun r => 60 * sampling_rate / r)

/-- ArrhythmiaDetector.analyze_rhythm.  Events are (type, interval index);
the human-readable description strings of the source carry no information
beyond the type and index and are omitted.  The source iterates
enumerate(zip(rr_intervals, heart_rates)), which visits exactly the indices
of rr_intervals; hr below is the i-th element of the heart_rates line.
The IRREGULAR test of the source is abs(rr - rr_mean) > 2 * rr_std with
rr_std = sqrt rr_var; both sides are nonnegative, so it is carried as the
equivalent square (rr - rr_mean)^2 > 4 * rr_var. -/
def analyze_rhythm (sampling_rate : ℚ) (rr : List ℚ) : List (ArrhythmiaType × ℕ) :=
  let rr_mean := qmean rr
  let rr_var := qvar rr
  (List.range rr.length).flatMap (fun i =>
    let r := rr.getD i 0
    let hr := 60 * sampling_rate / r
    (if tachycardia_threshold < hr then [(ArrhythmiaType.TACHYCARDIA, i)]
     else if hr < bradycardia_threshold then [(ArrhythmiaType.BRADYCARDIA, i)]
     else [])
    ++ (if 4 * rr_var < (r - rr_mean) ^ 2 then [(ArrhythmiaType.IRREGULAR, i)] else [])
    ++ (if i + 1 < rr.length ∧ r < 7/10 * rr_mean ∧ 13/10 * rr_mean < rr.getD (i + 1) 0
        then [(ArrhythmiaType.PREMATURE_BEAT, i)] else [])
    ++ (if 3/2 * rr_mean < r then [(ArrhythmiaType.PAUSE, i)] else []))

/-- ArrhythmiaDetector.classify_waveform.  peak_idx is a nonnegative index
(every call site passes a Python int >= 0).  max(0, peak_idx - 30) is
truncated subtraction on naturals.  The slice notation w[a:b] with
0 <= a <= b <= len w is (w.drop a).take (b - a). -/
def classify_waveform (waveform : List ℚ) (peak_idx : ℕ) : WaveformType :=
  if waveform.length < peak_idx + 50 then .NORMAL
  else
    let qrs_start := peak_idx - 30
    let qrs_end := min waveform.length (peak_idx + 30)
    let qrs_width := qrs_end - qrs_start
    if 40 < qrs_width then .WIDE_QRS
    else
      let st_start := peak_idx + 30
      let st_end := min waveform.length (peak_idx + 60)
      let stResult :=
        if st_start < st_end then
          let st := (waveform.drop st_start).take (st_end - st_start)
          let baseline := qmean (waveform.take (max 1 (peak_idx - 50)))
          let st_shift := qmean st - baseline
          if 1/10 * qmax waveform < st_shift then some WaveformType.ELEVATED_ST
          else if st_shift < -(1/10 * qmax waveform) then some WaveformType.DEPRESSED_ST
          else none
        else none
      match stResult with
      | some t => t
      | none =>
        let t_start := peak_idx + 60
        let t_end := min waveform.length (peak_idx + 120)
        if t_start < t_end then
          let t := (waveform.drop t_start).take (t_end - t_start)
          if qmean t < -(1/20 * qmax waveform) then .INVERTED_T else .NORMAL
        else .NORMAL

/-- ArrhythmiaDetector.generate_report: window_size =
len(waveforms[0]) // 2 if waveforms else 100, the peak offset handed to
classify_waveform for every segment. -/
def reportPeakOffset (waveforms : List (List ℚ)) : ℕ :=
  match waveforms with
  | [] => 100
  | w :: _ => w.length / 2

/-- ArrhythmiaDetector.label_beats: one label per peak, default Normal,
then labels[idx] = arr_type.value for each event in analyze_rhythm order,
guarded by idx < len(labels). -/
def label_beats (sampling_rate : ℚ) (peaks : List ℕ) (rr : List ℚ) : List String :=
  (analyze_rhythm sampling_rate rr).foldl
    (fun labels e => if e.2 < labels.length then labels.set e.2 (arrhythmiaValue e.1) else labels)
    (List.replicate peaks.length "Normal")

/-!
Peak finding.  EKGProcessor.detect_r_peaks delegates to
scipy.signal.find_peaks(x, height, distance).  The functions below embed
the scipy semantics (scipy >= 1.8, the version floor of setup.py):
local maxima with plateau midpoints, then the height filter, then
highest-first minimum-distance suppression; a ValueError when the distance
argument is below 1.  The height argument is represented by the predicate
it induces on a sample value, so that the auto threshold
mean + 0.5 * std of detect_r_peaks can be carried square-free.
-/

/-- Inner while loop of the scipy local-maxima scan: starting at j, advance
while j + 1 < n and x[j] equals the candidate value xi.  The loop is driven
by explicit fuel so that it is structurally recursive (and hence reduces
inside the kernel); j increases by one per step under the guard
j + 1 < len x, so any fuel of at least len x - j runs the loop to its
genuine exit, and every caller below passes len x. -/
def plateauEndFuel (x : List ℚ) (xi : ℚ) : ℕ → ℕ → ℕ
  | 0, j => j
  | fuel + 1, j =>
    if j + 1 < x.length ∧ x.getD j 0 = xi then plateauEndFuel x xi fuel (j + 1) else j

/-- The while loop of the plateau scan with its always-sufficient fuel. -/
def plateauEnd (x : List ℚ) (xi : ℚ) (j : ℕ) : ℕ := plateauEndFuel x xi x.length j

theorem plateauEndFuel_ge (x : List ℚ) (xi : ℚ) :
    ∀ (fuel j : ℕ), j ≤ plateauEndFuel x xi fuel j := by
  intro fuel
  induction fuel with
  | zero => intro j; exact Nat.le_refl j
  | succ n ih =>
    intro j
    unfold plateauEndFuel
    split
    · have := ih (j + 1)
      omega
    · exact Nat.le_refl j

theorem plateauEndFuel_lt (x : List ℚ) (xi : ℚ) :
    ∀ (fuel j : ℕ), j < x.length → plateauEndFuel x xi fuel j < x.length := by
  intro fuel
  induction fuel with
  | zero => intro j hj; exact hj
  | succ n ih =>
    intro j hj
    unfold plateauEndFuel
    split
    · rename_i h
      exact ih (j + 1) (by omega)
    · exact hj

theorem plateauEnd_ge (x : List ℚ) (xi : ℚ) (j : ℕ) : j ≤ plateauEnd x xi j :=
  plateauEndFuel_ge x xi x.length j

theorem plateauEnd_lt (x : List ℚ) (xi : ℚ) (j : ℕ) (hj : j < x.length) :
    plateauEnd x xi j < x.length :=
  plateauEndFuel_lt x xi x.length j hj

/-- Main scan of scipy _local_maxima_1d, started at i = 1.  A candidate at i
opens when x[i-1] < x[i]; the plateau is followed to i_ahead; if the value
then drops, the plateau midpoint (i + (i_ahead - 1)) / 2 is recorded and the
scan resumes at i_ahead + 1, otherwise at i + 1.  The scan stops once
i + 1 >= len x (the source bound i < i_max with i_max = len x - 1).  As with
plateauEndFuel, fuel only makes the recursion structural: the scan position
advances by at least one per step under the guard i + 1 < len x, so fuel
len x (what localMaxima passes) always reaches the genuine loop exit. -/
def localMaximaFromFuel (x : List ℚ) : ℕ → ℕ → List ℕ
  | 0, _ => []
  | fuel + 1, i =>
    if i + 1 < x.length then
      if x.getD (i - 1) 0 < x.getD i 0 then
        if x.getD (plateauEnd x (x.getD i 0) (i + 1)) 0 < x.getD i 0 then
          ((i + (plateauEnd x (x.getD i 0) (i + 1) - 1)) / 2)
            :: localMaximaFromFuel x fuel (plateauEnd x (x.getD i 0) (i + 1) + 1)
        else localMaximaFromFuel x fuel (i + 1)
      else localMaximaFromFuel x fuel (i + 1)
    else []

/-- All plateau-midpoint local maxima of a signal (scipy _local_maxima_1d). -/
def localMaxima (x : List ℚ) : List ℕ := localMaximaFromFuel x x.length 1

/-- Stable ascending index sort by height, standing for numpy argsort of the
peak heights in scipy _select_by_peak_distance.  Ties are broken by index;
numpy introsort orders ties in an implementation-defined way, and no
verified property below involves equal-height peaks within distance. -/
def sortIdxByHeight (hs : List ℚ) : List ℕ :=
  (List.range hs.length).foldr
    (fun a sorted => insertByHeight hs a sorted) []
where
  insertByHeight (hs : List ℚ) (a : ℕ) : List ℕ → List ℕ
    | [] => [a]
    | b :: t =>
      if hs.getD a 0 < hs.getD b 0 ∨ (hs.getD a 0 = hs.getD b 0 ∧ a ≤ b)
      then a :: b :: t
      else b :: insertByHeight hs a t

/-- One highest-priority step of scipy _select_by_peak_distance: with the
peak positions ascending (they come from localMaxima), the two while scans
from j mark keep[k] = False exactly for the k on either side of j whose
position is within distance of position j. -/
def markAround (ps : List ℕ) (d j : ℕ) (keep : List Bool) : List Bool :=
  (List.range keep.length).map (fun k =>
    if k < j ∧ ps.getD j 0 - ps.getD k 0 < d then false
    else if j < k ∧ ps.getD k 0 - ps.getD j 0 < d then false
    else keep.getD k true)

/-- scipy _select_by_peak_distance: walk the peaks from highest to lowest,
skipping ones already discarded, discarding neighbours within distance;
return the surviving peaks in position order. -/
def selectByPeakDistance (ps : List ℕ) (hs : List ℚ) (d : ℕ) : List ℕ :=
  let n := ps.length
  let keep := (sortIdxByHeight hs).reverse.foldl
    (fun keep j => if keep.getD j true then markAround ps d j keep else keep)
    (List.replicate n true)
  ((List.range n).filter (fun i => keep.getD i true)).map (fun i => ps.getD i 0)

/-- Error kinds raised by the embedded pipeline stages.  Python raises a
ValueError in every case; the constructor records which check fired. -/
inductive EKGError
  /-- filter_signal: "No data loaded. Call load_data() first." -/
  | noData
  /-- scipy butter: digital critical frequencies outside 0 < Wn < 1, or
  band edges with Wn[0] >= Wn[1]. -/
  | invalidRange
  /-- scipy filtfilt: input not longer than padlen = 27 (order-4 band). -/
  | shortSignal
  /-- scipy find_peaks: distance argument below 1. -/
  | invalidDistance
  /-- calculate_heart_rate: "Not enough peaks detected ...". -/
  | insufficientPeaks
  /-- len(None): segment_waveforms reached with peaks set but no filtered
  signal. -/
  | typeError
deriving DecidableEq

instance {ε α : Type} [DecidableEq ε] [DecidableEq α] : DecidableEq (Except ε α) :=
  fun a b =>
    match a, b with
    | .error e, .error f =>
      if h : e = f then .isTrue (by rw [h]) else .isFalse (by intro hc; cases hc; exact h rfl)
    | .ok x, .ok y =>
      if h : x = y then .isTrue (by rw [h]) else .isFalse (by intro hc; cases hc; exact h rfl)
    | .error _, .ok _ => .isFalse (by intro hc; cases hc)
    | .ok _, .error _ => .isFalse (by intro hc; cases hc)

/-- scipy.signal.find_peaks restricted to the arguments the processor uses:
a height condition and a distance.  heightOK is the predicate induced by the
height threshold (kept iff the threshold is at most the sample value). -/
def find_peaks (x : List ℚ) (heightOK : ℚ → Bool) (distance : ℕ) :
    Except EKGError (List ℕ) :=
  if distance < 1 then .error .invalidDistance
  else
    let mids := localMaxima x
    let kept := mids.filter (fun p => heightOK (x.getD p 0))
    .ok (selectByPeakDistance kept (kept.map (fun p => x.getD p 0)) distance)

/-- Heart-rate statistics dictionary of calculate_heart_rate.  numpy.std is
carried by its square (see the file header). -/
structure HRStats where
  mean : ℚ
  std_sq : ℚ
  min : ℚ
  max : ℚ
deriving DecidableEq

/-- Mutable state of an EKGProcessor instance (processor.py __init__). -/
structure EKGProcessor where
  sampling_rate : ℕ
  data : Option (List ℚ)
  filtered_data : Option (List ℚ)
  peaks : Option (List ℕ)
  heart_rate : Option HRStats
deriving DecidableEq

/-- EKGProcessor.load_data: store the signal; no other field is touched. -/
def load_data (s : EKGProcessor) (d : List ℚ) : EKGProcessor :=
  { s with data := some d }

/-- Validation performed by scipy.signal.butter on normalized digital band
edges: each critical frequency must satisfy 0 < Wn < 1, and the lower band
edge must be strictly below the upper one. -/
def butterValid (low high : ℚ) : Bool :=
  decide (0 < low) && decide (low < 1) && decide (0 < high) && decide (high < 1)
    && decide (low < high)

section Processor

/- Numeric core of SignalConditioner: scipy filtfilt of the order-4
Butterworth band-pass designed for (lowcut, highcut, sampling_rate).  The
filter numerics live in scipy, outside this repository, and no verified
property depends on the filtered values, so the core is a parameter of the
embedding; every theorem about the stateful pipeline quantifies over it. -/
variable (butterFiltfilt : ℚ → ℚ → ℕ → List ℚ → List ℚ)

/-- EKGProcessor.filter_signal.  Order of the checks as in the source and
its callees: the data-loaded check, then butter validation of the
normalized cutoffs, then the filtfilt padlen check (filtfilt raises unless
len(x) > padlen = 3 * max(len(a), len(b)) = 27 for an order-4 band
filter). -/
def filter_signal (s : EKGProcessor) (lowcut highcut : ℚ) :
    Except EKGError (List ℚ × EKGProcessor) :=
  match s.data with
  | none => .error .noData
  | some d =>
    let nyquist : ℚ := (s.sampling_rate : ℚ) / 2
    let low := lowcut / nyquist
    let high := highcut / nyquist
    if butterValid low high then
      if 27 < d.length then
        let fd := butterFiltfilt lowcut highcut s.sampling_rate d
        .ok (fd, { s with filtered_data := some fd })
      else .error .shortSignal
    else .error .invalidRange

/-- Auto minimum peak distance of detect_r_peaks:
int(self.sampling_rate * 60 / 800 * 0.6).  Exactly 9 * rate / 200 truncated;
the float evaluation of the source rounds to the same integer at every
sampling rate a theorem below touches (45 at the default 1000 Hz). -/
def autoDistance (sampling_rate : ℕ) : ℕ := 9 * sampling_rate / 200

/-- Body of detect_r_peaks once a filtered signal fd exists.  With an
explicit threshold h the find_peaks height predicate is h <= v; with the
auto threshold mean + 0.5 * std the comparison v >= mean + 0.5 * std is
carried square-free as 0 <= 2*(v - mean) and var <= 4*(v - mean)^2. -/
def detectCore (s : EKGProcessor) (fd : List ℚ)
    (height_threshold : Option ℚ) (distance : Option ℕ) :
    Except EKGError (List ℕ × EKGProcessor) :=
  let heightOK : ℚ → Bool :=
    match height_threshold with
    | some h => fun v => decide (h ≤ v)
    | none => fun v =>
        decide (0 ≤ 2 * (v - qmean fd)) && decide (qvar fd ≤ (2 * (v - qmean fd)) ^ 2)
  let d := distance.getD (autoDistance s.sampling_rate)
  match find_peaks fd heightOK d with
  | .error e => .error e
  | .ok pk => .ok (pk, { s with peaks := some pk })

/-- EKGProcessor.detect_r_peaks: runs filter_signal with the default
cutoffs 0.5 and 100.0 first when no filtered signal exists. -/
def detect_r_peaks (s : EKGProcessor)
    (height_threshold : Option ℚ) (distance : Option ℕ) :
    Except EKGError (List ℕ × EKGProcessor) :=
  match s.filtered_data with
  | none =>
    match filter_signal butterFiltfilt s (1/2) 100 with
    | .error e => .error e
    | .ok (fd, s1) => detectCore s1 fd height_threshold distance
  | some fd => detectCore s fd height_threshold distance

/-- Tail of calculate_heart_rate after peaks pk are available:
rr = numpy.diff(peaks) / rate in seconds, heart_rates = 60 / rr, then the
stats dictionary (std carried squared). -/
def heartRateCore (s : EKGProcessor) (pk : List ℕ) :
    Except EKGError (HRStats × EKGProcessor) :=
  if pk.length < 2 then .error .insufficientPeaks
  else
    let rr_sec : List ℚ := (pk.zip pk.tail).map
      (fun ab => ((ab.2 : ℚ) - (ab.1 : ℚ)) / (s.sampling_rate : ℚ))
    let hrs := rr_sec.map (fun r => 60 / r)
    let stats : HRStats :=
      { mean := qmean hrs, std_sq := qvar hrs, min := qmin hrs, max := qmax hrs }
    .ok (stats, { s with heart_rate := some stats })

/-- EKGProcessor.calculate_heart_rate: runs detect_r_peaks with default
arguments first when no peaks exist. -/
def calculate_heart_rate (s : EKGProcessor) :
    Except EKGError (HRStats × EKGProcessor) :=
  match s.peaks with
  | none =>
    match detect_r_peaks butterFiltfilt s none none with
    | .error e => .error e
    | .ok (pk, s1) => heartRateCore s1 pk
  | some pk => heartRateCore s pk

/-- Loop body of EKGProcessor.segment_waveforms over the stored filtered
signal: keep filtered[start:end] for each peak exactly when
end - start == 2 * window_size (the comparison is on Python ints, hence
carried on integers: with window_size > 0 a window past the end of the
signal yields a negative difference and is dropped). -/
def segmentCore (filtered : List ℚ) (peaks : List ℕ) (window_size : ℕ) :
    List (List ℚ) :=
  peaks.filterMap (fun p =>
    let start := p - window_size
    let e := min filtered.length (p + window_size)
    if (e : ℤ) - (start : ℤ) = 2 * (window_size : ℤ)
    then some ((filtered.drop start).take (e - start))
    else none)

/-- EKGProcessor.segment_waveforms: runs detect_r_peaks with default
arguments first when no peaks exist, then slices the filtered signal.  A
state carrying peaks but no filtered signal hits len(None) in the source, a
TypeError. -/
def segment_waveforms (s : EKGProcessor) (window_size : ℕ) :
    Except EKGError (List (List ℚ) × EKGProcessor) :=
  match s.peaks with
  | none =>
    match detect_r_peaks butterFiltfilt s none none with
    | .error e => .error e
    | .ok (pk, s1) =>
      match s1.filtered_data with
      | none => .error .typeError
      | some fd => .ok (segmentCore fd pk window_size, s1)
  | some pk =>
    match s.filtered_data with
    | none => .error .typeError
    | some fd => .ok (segmentCore fd pk window_size, s)

end Processor

/-- The slice of a signal that EKGProcessor.segment_waveforms would keep
for a peak p: signal[max(0, p - w) : min(len signal, p + w)]. -/
def windowSlice (signal : List ℚ) (p w : ℕ) : List ℚ :=
  (signal.drop (p - w)).take (min signal.length (p + w) - (p - w))

/-!
Claim theorems.
-/

/-- Claim C1 counterexample: the all-zero waveform of length 100, classified
at the pipeline peak offset half its length (50), yields WIDE_QRS, not
NORMAL: the guard 100 < 50 + 50 fails, and the unclipped QRS window of
width 60 exceeds 40 before any amplitude is consulted. -/
theorem classify_zero_waveform_cex :
    classify_waveform (List.replicate 100 0) (reportPeakOffset [List.replicate 100 0]) =
      WaveformType.WIDE_QRS := by
  decide

/-- Claim C1, amended: an all-zero waveform at peak offset half its length
classifies NORMAL exactly when its length is below 99 (the insufficient
context guard len < peakOffset + 50); from length 99 on, the unclipped
fixed QRS window has width 60 > 40 and the result is WIDE_QRS. -/
theorem classify_zero_waveform_cases (n : ℕ) :
    classify_waveform (List.replicate n 0) (reportPeakOffset [List.replicate n 0]) =
      if n < 99 then WaveformType.NORMAL else WaveformType.WIDE_QRS := by
  unfold classify_waveform reportPeakOffset
  simp only [List.length_replicate]
  by_cases h : n < 99
  · rw [if_pos (by omega), if_pos h]
  · rw [if_neg (by omega), if_neg h, if_pos (by omega)]

/-- Claim C2: whenever the waveform extends at least 50 samples past the
peak offset and the offset is at least 30, the QRS window is unclipped, its
width is 60 > 40, and classify_waveform returns WIDE_QRS regardless of the
sample values. -/
theorem classify_unclipped_wide_qrs (waveform : List ℚ) (peak_idx : ℕ)
    (hlen : peak_idx + 50 ≤ waveform.length) (hoff : 30 ≤ peak_idx) :
    classify_waveform waveform peak_idx = WaveformType.WIDE_QRS := by
  unfold classify_waveform
  rw [if_neg (by omega), if_pos (by omega)]

/-- Witness for C2 at a concrete unclipped input. -/
theorem classify_unclipped_wide_qrs_witness :
    classify_waveform (List.replicate 80 0) 30 = WaveformType.WIDE_QRS :=
  classify_unclipped_wide_qrs (List.replicate 80 0) 30 (by decide) (by decide)

/-- Claim C5 counterexample: loading a new signal into a state that holds a
filtered signal, peaks and heart-rate statistics leaves all three in place;
none of them becomes none. -/
theorem load_data_reset_cex :
    ¬ ((load_data ⟨1000, some [1], some [2], some [3], some ⟨600, 0, 600, 600⟩⟩
          [5]).filtered_data = none ∧
       (load_data ⟨1000, some [1], some [2], some [3], some ⟨600, 0, 600, 600⟩⟩
          [5]).peaks = none ∧
       (load_data ⟨1000, some [1], some [2], some [3], some ⟨600, 0, 600, 600⟩⟩
          [5]).heart_rate = none) := by
  decide

/-- Claim C5, amended: load_data stores the new signal and changes nothing
else; the previously computed filtered signal, peak set and heart-rate
statistics are retained, not cleared. -/
theorem load_data_frame (s : EKGProcessor) (d : List ℚ) :
    (load_data s d).data = some d ∧
    (load_data s d).filtered_data = s.filtered_data ∧
    (load_data s d).peaks = s.peaks ∧
    (load_data s d).heart_rate = s.heart_rate ∧
    (load_data s d).sampling_rate = s.sampling_rate :=
  ⟨rfl, rfl, rfl, rfl, rfl⟩

/-- Claim C9: segmentation keeps only complete windows; every waveform it
returns has length exactly 2 * window_size, and at most one waveform is
produced per peak. -/
theorem segment_complete_windows (f : List ℚ) (pk : List ℕ) (w : ℕ) :
    (∀ wf ∈ segmentCore f pk w, wf.length = 2 * w) ∧
    (segmentCore f pk w).length ≤ pk.length := by
  constructor
  · intro wf hwf
    obtain ⟨p, _, hp⟩ := List.mem_filterMap.mp hwf
    simp only at hp
    split at hp
    · rename_i hcond
      cases hp
      simp only [List.length_take, List.length_drop]
      omega
    · cases hp
  · exact List.length_filterMap_le _ _

/-- Witness for C9 at a concrete signal, peak list and window size. -/
theorem segment_complete_windows_witness :
    ([(1 : ℚ), 2].length = 2 * 1) ∧
    (segmentCore [0, 1, 2, 3, 4, 5] [2, 5] 1).length ≤ ([2, 5] : List ℕ).length :=
  ⟨(segment_complete_windows [0, 1, 2, 3, 4, 5] [2, 5] 1).1 [1, 2] (by decide),
   (segment_complete_windows [0, 1, 2, 3, 4, 5] [2, 5] 1).2⟩

/-- Claim C4: with a signal loaded and a positive sampling rate, the
conditioning stage fails with the invalid-range error whenever the low
cutoff is at least the high cutoff or either cutoff exceeds the Nyquist
frequency; the normalized band edges then violate the butter validation
0 < Wn < 1, Wn[0] < Wn[1], before any filtering happens. -/
theorem filter_signal_invalid_range (butterFiltfilt : ℚ → ℚ → ℕ → List ℚ → List ℚ)
    (s : EKGProcessor) (d : List ℚ) (lowcut highcut : ℚ)
    (hd : s.data = some d) (hsr : 0 < s.sampling_rate)
    (hbad : highcut ≤ lowcut ∨ (s.sampling_rate : ℚ) / 2 < lowcut ∨
      (s.sampling_rate : ℚ) / 2 < highcut) :
    filter_signal butterFiltfilt s lowcut highcut = .error .invalidRange := by
  have hn : (0 : ℚ) < (s.sampling_rate : ℚ) / 2 := by
    have : (0 : ℚ) < (s.sampling_rate : ℚ) := by exact_mod_cast hsr
    linarith
  unfold filter_signal
  rw [hd]
  have hval : butterValid (lowcut / ((s.sampling_rate : ℚ) / 2))
      (highcut / ((s.sampling_rate : ℚ) / 2)) = false := by
    simp only [butterValid, Bool.and_eq_false_iff, decide_eq_false_iff_not, not_lt]
    rcases hbad with h | h | h
    · exact Or.inr ((div_le_div_iff_of_pos_right hn).mpr h)
    · exact Or.inl (Or.inl (Or.inl (Or.inr ((one_le_div hn).mpr (le_of_lt h)))))
    · exact Or.inl (Or.inr ((one_le_div hn).mpr (le_of_lt h)))
  simp only [hval, Bool.false_eq_true, if_false]

/-- Witness for C4: low cutoff 200 above high cutoff 100 at 1000 Hz. -/
theorem filter_signal_invalid_range_witness :
    filter_signal (fun _ _ _ l => l)
      ⟨1000, some (List.replicate 30 0), none, none, none⟩ 200 100 =
      .error .invalidRange :=
  filter_signal_invalid_range (fun _ _ _ l => l)
    ⟨1000, some (List.replicate 30 0), none, none, none⟩
    (List.replicate 30 0) 200 100 rfl (by decide) (Or.inl (by norm_num))

/-- Claim C6 counterexample: with raw signal all ones and filtered signal
all zeros, segmentation returns the zero window, while the window of the
signal as loaded is the ones window; the returned segment is a slice of the
filtered signal, not of the raw one. -/
theorem segment_waveforms_raw_cex :
    segment_waveforms (fun _ _ _ l => l)
        ⟨1000, some (List.replicate 10 1), some (List.replicate 10 0), some [5], none⟩ 2 =
      .ok ([List.replicate 4 0],
        ⟨1000, some (List.replicate 10 1), some (List.replicate 10 0), some [5], none⟩) ∧
    windowSlice (List.replicate 10 1) 5 2 = List.replicate 4 1 ∧
    List.replicate 4 (0 : ℚ) ≠ List.replicate 4 (1 : ℚ) := by
  refine ⟨by decide, by decide, by decide⟩

/-- Claim C6, amended: every waveform returned by segmentation is the
window of the stored filtered signal centered on its peak (clipped at the
bounds), not of the raw signal. -/
theorem segment_waveforms_filtered_windows
    (butterFiltfilt : ℚ → ℚ → ℕ → List ℚ → List ℚ)
    (s : EKGProcessor) (f : List ℚ) (pk : List ℕ) (w : ℕ)
    (hf : s.filtered_data = some f) (hp : s.peaks = some pk) :
    segment_waveforms butterFiltfilt s w = .ok (segmentCore f pk w, s) ∧
    ∀ wf ∈ segmentCore f pk w, ∃ p ∈ pk, wf = windowSlice f p w := by
  constructor
  · unfold segment_waveforms
    rw [hp, hf]
  · intro wf hwf
    obtain ⟨p, hpm, hpe⟩ := List.mem_filterMap.mp hwf
    simp only at hpe
    split at hpe
    · cases hpe
      exact ⟨p, hpm, rfl⟩
    · cases hpe

/-- Witness for C6 at a concrete state with filtered signal and peaks. -/
theorem segment_waveforms_filtered_windows_witness :
    segment_waveforms (fun _ _ _ l => l)
        ⟨1000, some [9, 9, 9, 9, 9, 9], some [0, 1, 2, 3, 4, 5], some [2], none⟩ 1 =
      .ok (segmentCore [0, 1, 2, 3, 4, 5] [2] 1,
        ⟨1000, some [9, 9, 9, 9, 9, 9], some [0, 1, 2, 3, 4, 5], some [2], none⟩) ∧
    ∀ wf ∈ segmentCore [0, 1, 2, 3, 4, 5] [2] 1, ∃ p ∈ [2], wf = windowSlice [0, 1, 2, 3, 4, 5] p 1 :=
  segment_waveforms_filtered_windows (fun _ _ _ l => l)
    ⟨1000, some [9, 9, 9, 9, 9, 9], some [0, 1, 2, 3, 4, 5], some [2], none⟩
    [0, 1, 2, 3, 4, 5] [2] 1 rfl rfl

/-- Every recorded local-maximum midpoint is a valid index of the signal. -/
theorem localMaximaFromFuel_lt_length (x : List ℚ) :
    ∀ (fuel i : ℕ), ∀ p ∈ localMaximaFromFuel x fuel i, p < x.length := by
  intro fuel
  induction fuel with
  | zero =>
    intro i p hp
    simp [localMaximaFromFuel] at hp
  | succ n ih =>
    intro i
    unfold localMaximaFromFuel
    split
    · rename_i hi
      split
      · split
        · intro p hp
          have hge := plateauEnd_ge x (x.getD i 0) (i + 1)
          have hl2 := plateauEnd_lt x (x.getD i 0) (i + 1) (by omega)
          rcases List.mem_cons.mp hp with h | h
          · subst h
            omega
          · exact ih _ p h
        · exact ih (i + 1)
      · exact ih (i + 1)
    · intro p hp
      simp at hp

theorem localMaxima_lt_length (x : List ℚ) : ∀ p ∈ localMaxima x, p < x.length :=
  localMaximaFromFuel_lt_length x x.length 1

theorem localMaxima_nil : localMaxima ([] : List ℚ) = [] := rfl

theorem selectByPeakDistance_nil (d : ℕ) : selectByPeakDistance [] [] d = [] := rfl

/-- find_peaks returns the empty peak list, not an error, whenever no local
maximum satisfies the height condition (in particular on an empty signal,
which has no local maxima at all). -/
theorem find_peaks_no_peak (x : List ℚ) (heightOK : ℚ → Bool) (d : ℕ) (hd : 1 ≤ d)
    (hnone : ∀ p ∈ localMaxima x, heightOK (x.getD p 0) = false) :
    find_peaks x heightOK d = .ok [] := by
  have hfil : (localMaxima x).filter (fun p => heightOK (x.getD p 0)) = [] := by
    rw [List.filter_eq_nil_iff]
    intro p hp
    simp only [hnone p hp, Bool.false_eq_true, not_false_eq_true]
  simp only [find_peaks]
  rw [if_neg (by omega), hfil]
  simp [selectByPeakDistance_nil]

theorem getD_mem_of_lt (l : List ℚ) (n : ℕ) (h : n < l.length) (d : ℚ) :
    l.getD n d ∈ l := by
  rw [List.getD_eq_getElem l d h]
  exact List.getElem_mem h

/-- Claim C3 counterexample: detect_r_peaks on a state whose conditioned
signal is present but empty raises nothing; it stores and returns the empty
peak list.  The source reaches scipy find_peaks with the empty array (the
auto threshold mean + 0.5 * std is NaN there but is never compared against
a sample) and find_peaks of an empty array is empty.  No EmptySignalError
exists anywhere in the repository. -/
theorem detect_r_peaks_empty_cex :
    detect_r_peaks (fun _ _ _ l => l) ⟨1000, some [1], some [], none, none⟩ none none =
      .ok ([], ⟨1000, some [1], some [], some [], none⟩) := by
  decide

/-- Claim C3, amended: detect_r_peaks returns the empty peak set without an
error both when the conditioned signal is empty and when the signal is
non-empty but no sample clears the height threshold (here the explicit
threshold mode, with a valid minimum distance). -/
theorem detect_r_peaks_empty_or_subthreshold
    (butterFiltfilt : ℚ → ℚ → ℕ → List ℚ → List ℚ) :
    (∀ s : EKGProcessor, s.filtered_data = some [] →
       1 ≤ autoDistance s.sampling_rate →
       detect_r_peaks butterFiltfilt s none none =
         .ok ([], { s with peaks := some [] })) ∧
    (∀ (s : EKGProcessor) (f : List ℚ) (h : ℚ) (dv : ℕ),
       s.filtered_data = some f → f ≠ [] → 1 ≤ dv → (∀ v ∈ f, v < h) →
       detect_r_peaks butterFiltfilt s (some h) (some dv) =
         .ok ([], { s with peaks := some [] })) := by
  constructor
  · intro s hf hdist
    have hfp : ∀ heightOK : ℚ → Bool,
        find_peaks [] heightOK (autoDistance s.sampling_rate) = .ok [] := by
      intro heightOK
      apply find_peaks_no_peak _ _ _ hdist
      intro p hp
      rw [localMaxima_nil] at hp
      cases hp
    simp only [detect_r_peaks, hf, detectCore, Option.getD_none, hfp]
  · intro s f h dv hf hne hdv hlt
    have hfp : find_peaks f (fun v => decide (h ≤ v)) dv = .ok [] := by
      apply find_peaks_no_peak _ _ _ hdv
      intro p hp
      have hplen := localMaxima_lt_length f p hp
      have hmem := getD_mem_of_lt f p hplen 0
      simp only [decide_eq_false_iff_not, not_le]
      exact hlt _ hmem
    simp only [detect_r_peaks, hf, detectCore, Option.getD_some, hfp]

/-- Witness for C3 at a concrete empty state and a concrete sub-threshold
signal. -/
theorem detect_r_peaks_empty_or_subthreshold_witness :
    detect_r_peaks (fun _ _ _ l => l) ⟨500, some [], some [], none, none⟩ none none =
      .ok ([], ⟨500, some [], some [], some [], none⟩) ∧
    detect_r_peaks (fun _ _ _ l => l) ⟨1000, none, some [3, 1, 2], none, none⟩
        (some 10) (some 2) =
      .ok ([], ⟨1000, none, some [3, 1, 2], some [], none⟩) :=
  ⟨(detect_r_peaks_empty_or_subthreshold (fun _ _ _ l => l)).1
      ⟨500, some [], some [], none, none⟩ rfl (by decide),
   (detect_r_peaks_empty_or_subthreshold (fun _ _ _ l => l)).2
      ⟨1000, none, some [3, 1, 2], none, none⟩ [3, 1, 2] 10 2 rfl (by decide)
      (by decide) (by decide)⟩

theorem qmean_replicate (n : ℕ) (c : ℚ) (hn : n ≠ 0) :
    qmean (List.replicate n c) = c := by
  unfold qmean
  rw [List.sum_replicate, List.length_replicate]
  rw [nsmul_eq_mul]
  rw [mul_comm, mul_div_assoc, div_self (by exact_mod_cast hn), mul_one]

theorem qvar_replicate (n : ℕ) (c : ℚ) (hn : n ≠ 0) :
    qvar (List.replicate n c) = 0 := by
  unfold qvar
  rw [qmean_replicate n c hn, List.map_replicate]
  simp only [sub_self, ne_eq, OfNat.ofNat_ne_zero, not_false_eq_true, zero_pow]
  rw [qmean_replicate n 0 hn]

/-- On the constant RR sequence of value 100 at 1000 Hz no rule of
analyze_rhythm fires at any interval. -/
theorem analyze_rhythm_const100 (n : ℕ) (hn : n ≠ 0) :
    analyze_rhythm 1000 (List.replicate n 100) = [] := by
  unfold analyze_rhythm
  rw [List.flatMap_eq_nil_iff]
  intro i hi
  rw [List.mem_range, List.length_replicate] at hi
  have hget : (List.replicate n (100 : ℚ)).getD i 0 = 100 := by
    rw [List.getD_eq_getElem _ _ (by simpa using hi)]
    simp
  rw [List.length_replicate]
  rw [hget, qmean_replicate n 100 hn, qvar_replicate n 100 hn]
  norm_num [tachycardia_threshold, bradycardia_threshold]

/-- Claim C8: for any constant RR sequence of value 100 samples and length
at least 1 at sampling rate 1000, the instantaneous heart rate of every
interval is exactly 600 bpm, and analyze_rhythm emits no IRREGULAR, PAUSE
or PREMATURE_BEAT event. -/
theorem constant_rr_600_no_events (n : ℕ) (hn : 1 ≤ n) :
    heart_rates 1000 (List.replicate n 100) = List.replicate n 600 ∧
    ((analyze_rhythm 1000 (List.replicate n 100)).filter
      (fun e => e.1 = ArrhythmiaType.IRREGULAR)).length = 0 ∧
    ((analyze_rhythm 1000 (List.replicate n 100)).filter
      (fun e => e.1 = ArrhythmiaType.PAUSE)).length = 0 ∧
    ((analyze_rhythm 1000 (List.replicate n 100)).filter
      (fun e => e.1 = ArrhythmiaType.PREMATURE_BEAT)).length = 0 := by
  have hz : analyze_rhythm 1000 (List.replicate n 100) = [] :=
    analyze_rhythm_const100 n (by omega)
  refine ⟨?_, ?_, ?_, ?_⟩
  · unfold heart_rates
    rw [List.map_replicate]
    norm_num
  · rw [hz]; rfl
  · rw [hz]; rfl
  · rw [hz]; rfl

/-- Witness for C8 at the concrete length 3. -/
theorem constant_rr_600_no_events_witness :
    heart_rates 1000 (List.replicate 3 100) = List.replicate 3 600 ∧
    ((analyze_rhythm 1000 (List.replicate 3 100)).filter
      (fun e => e.1 = ArrhythmiaType.IRREGULAR)).length = 0 ∧
    ((analyze_rhythm 1000 (List.replicate 3 100)).filter
      (fun e => e.1 = ArrhythmiaType.PAUSE)).length = 0 ∧
    ((analyze_rhythm 1000 (List.replicate 3 100)).filter
      (fun e => e.1 = ArrhythmiaType.PREMATURE_BEAT)).length = 0 :=
  constant_rr_600_no_events 3 (by omega)

theorem labelFold_length (es : List (ArrhythmiaType × ℕ)) (labels : List String) :
    (es.foldl (fun labels e =>
        if e.2 < labels.length then labels.set e.2 (arrhythmiaValue e.1) else labels)
      labels).length = labels.length := by
  induction es generalizing labels with
  | nil => rfl
  | cons e es ih =>
    rw [List.foldl_cons, ih]
    split
    · rw [List.length_set]
    · rfl

/-- The label fold of label_beats leaves slot i at its initial value unless
some event indexes beat i, in which case the last such event (the first one
of the reversed list) wins. -/
theorem labelFold_getD (es : List (ArrhythmiaType × ℕ)) :
    ∀ (labels : List String) (i : ℕ), i < labels.length →
    (es.foldl (fun labels e =>
        if e.2 < labels.length then labels.set e.2 (arrhythmiaValue e.1) else labels)
      labels).getD i "" =
    (es.reverse.find? (fun e => e.2 == i)).elim (labels.getD i "")
      (fun e => arrhythmiaValue e.1) := by
  induction es with
  | nil =>
    intro labels i hi
    simp
  | cons e es ih =>
    intro labels i hi
    rw [List.foldl_cons, List.reverse_cons, List.find?_append]
    have hstep : (if e.2 < labels.length
        then labels.set e.2 (arrhythmiaValue e.1) else labels).length = labels.length := by
      split
      · rw [List.length_set]
      · rfl
    rw [ih _ i (by rw [hstep]; exact hi)]
    cases hfind : es.reverse.find? (fun e => e.2 == i) with
    | some x => simp
    | none =>
      rw [Option.none_or]
      by_cases hpe : e.2 = i
      · have hp : (e.2 == i) = true := by simp [hpe]
        have hfe : List.find? (fun x : ArrhythmiaType × ℕ => x.2 == i) [e] = some e := by
          simp [List.find?, hp]
        rw [hfe, Option.elim_some]
        rw [if_pos (by omega)]
        rw [hpe, List.getD_eq_getElem?_getD, List.getElem?_set_eq_of_lt _ hi]
        rfl
      · have hp : (e.2 == i) = false := by simp [hpe]
        have hfe : List.find? (fun x : ArrhythmiaType × ℕ => x.2 == i) [e] = none := by
          simp [List.find?, hp]
        rw [hfe]
        simp only [Option.elim_none]
        split
        · rw [List.getD_eq_getElem?_getD, List.getElem?_set_ne hpe,
            ← List.getD_eq_getElem?_getD]
        · rfl

/-- Claim C7: label_beats returns exactly one label per peak; a slot i holds
the Normal default unless some ArrhythmiaEvent of analyze_rhythm has beat
index i, in which case it holds the value string of the last such event in
emission order (the first match of the reversed event list). -/
theorem label_beats_last_event_wins (sampling_rate : ℚ) (peaks : List ℕ) (rr : List ℚ) :
    (label_beats sampling_rate peaks rr).length = peaks.length ∧
    ∀ i, i < peaks.length →
      (label_beats sampling_rate peaks rr).getD i "" =
        ((analyze_rhythm sampling_rate rr).reverse.find? (fun e => e.2 == i)).elim
          "Normal" (fun e => arrhythmiaValue e.1) := by
  constructor
  · unfold label_beats
    rw [labelFold_length, List.length_replicate]
  · intro i hi
    unfold label_beats
    rw [labelFold_getD _ _ i (by rw [List.length_replicate]; exact hi)]
    congr 1
    rw [List.getD_eq_getElem _ _ (by rw [List.length_replicate]; exact hi)]
    exact List.getElem_replicate ..

/-- Witness for C7: three peaks, RR intervals 100 and 300 at 1000 Hz; beat 1
matches the bradycardia event. -/
theorem label_beats_last_event_wins_witness :
    (label_beats 1000 [0, 100, 400] [100, 300]).getD 1 "" =
      ((analyze_rhythm 1000 [100, 300]).reverse.find? (fun e => e.2 == 1)).elim
        "Normal" (fun e => arrhythmiaValue e.1) :=
  (label_beats_last_event_wins 1000 [0, 100, 400] [100, 300]).2 1 (by decide)

/-- find_peaks never errors once the distance argument is at least 1. -/
theorem find_peaks_ok (x : List ℚ) (heightOK : ℚ → Bool) (d : ℕ) (hd : 1 ≤ d) :
    find_peaks x heightOK d =
      .ok (selectByPeakDistance ((localMaxima x).filter fun p => heightOK (x.getD p 0))
        (((localMaxima x).filter fun p => heightOK (x.getD p 0)).map fun p => x.getD p 0)
        d) := by
  unfold find_peaks
  rw [if_neg (by omega)]

/-- Claim C10: on a state with loaded data (long enough for the padlen
check) and no filtered signal, detect_r_peaks does not surface the missing
stage as an error: it filters the loaded data with the default cutoffs 0.5
and 100 and stores filtered signal and peaks; likewise, with no peaks,
calculate_heart_rate first runs detect_r_peaks with default arguments and
continues from its result state. -/
theorem implicit_default_stages (butterFiltfilt : ℚ → ℚ → ℕ → List ℚ → List ℚ)
    (s : EKGProcessor) (d : List ℚ)
    (hd : s.data = some d) (hf : s.filtered_data = none)
    (hlen : 27 < d.length) (hsr : 200 < s.sampling_rate) :
    (∃ pk, detect_r_peaks butterFiltfilt s none none =
      .ok (pk, { s with
        filtered_data := some (butterFiltfilt (1/2) 100 s.sampling_rate d),
        peaks := some pk })) ∧
    (s.peaks = none → ∀ pk s1,
      detect_r_peaks butterFiltfilt s none none = .ok (pk, s1) →
      calculate_heart_rate butterFiltfilt s = heartRateCore s1 pk) := by
  have hsrq : (200 : ℚ) < (s.sampling_rate : ℚ) := by exact_mod_cast hsr
  have hnq : (0 : ℚ) < (s.sampling_rate : ℚ) / 2 := by linarith
  have hvalid : butterValid ((1/2) / ((s.sampling_rate : ℚ) / 2))
      (100 / ((s.sampling_rate : ℚ) / 2)) = true := by
    simp only [butterValid, Bool.and_eq_true, decide_eq_true_eq]
    refine ⟨⟨⟨⟨?_, ?_⟩, ?_⟩, ?_⟩, ?_⟩
    · exact div_pos (by norm_num) hnq
    · exact (div_lt_one hnq).mpr (by linarith)
    · exact div_pos (by norm_num) hnq
    · exact (div_lt_one hnq).mpr (by linarith)
    · exact (div_lt_div_iff_of_pos_right hnq).mpr (by norm_num)
  have hfs : filter_signal butterFiltfilt s (1/2) 100 =
      .ok (butterFiltfilt (1/2) 100 s.sampling_rate d,
        { s with filtered_data := some (butterFiltfilt (1/2) 100 s.sampling_rate d) }) := by
    unfold filter_signal
    rw [hd]
    simp only [hvalid, if_true]
    rw [if_pos hlen]
  have hdist : 1 ≤ autoDistance s.sampling_rate := by
    unfold autoDistance
    omega
  constructor
  · simp only [detect_r_peaks, hf, hfs, detectCore, Option.getD_none,
      find_peaks_ok _ _ _ hdist]
    exact ⟨_, rfl⟩
  · intro hp pk s1 hdet
    simp only [calculate_heart_rate, hp, hdet]

/-- Witness for C10 on a strictly increasing 28-sample signal at 1000 Hz
with the identity in place of the external filter numerics. -/
theorem implicit_default_stages_witness :
    (∃ pk, detect_r_peaks (fun _ _ _ l => l)
        ⟨1000, some ((List.range 28).map fun k => (k : ℚ)), none, none, none⟩ none none =
      .ok (pk, ⟨1000, some ((List.range 28).map fun k => (k : ℚ)),
        some ((List.range 28).map fun k => (k : ℚ)), some pk, none⟩)) ∧
    ((⟨1000, some ((List.range 28).map fun k => (k : ℚ)), none, none, none⟩ :
        EKGProcessor).peaks = none → ∀ pk s1,
      detect_r_peaks (fun _ _ _ l => l)
        ⟨1000, some ((List.range 28).map fun k => (k : ℚ)), none, none, none⟩ none none =
          .ok (pk, s1) →
      calculate_heart_rate (fun _ _ _ l => l)
        ⟨1000, some ((List.range 28).map fun k => (k : ℚ)), none, none, none⟩ =
          heartRateCore s1 pk) :=
  implicit_default_stages (fun _ _ _ l => l)
    ⟨1000, some ((List.range 28).map fun k => (k : ℚ)), none, none, none⟩
    ((List.range 28).map fun k => (k : ℚ)) rfl rfl (by decide) (by decide)

end EKG
